import Mathlib

/-!
Verification development for the notification-service backend.

The definitions below are a shallow embedding of the Python sources:
- `src/models/notification.py` (enums, `Notification`, `__post_init__`,
  `can_retry`, `update_status`),
- `src/services/notification_service.py` (`__init__` queue/rate-limiter
  setup, `_check_rate_limit`, `send_notification`,
  `process_queued_notifications`),
- `src/services/email_service.py` (`send_email` and its error handlers),
- `src/controllers/notification_controller.py` (`create_notification`).

Conventions: wall-clock instants are integers (seconds); each call of
`datetime.utcnow()` inside one operation is modelled as the single instant
at which the operation runs.  Python exceptions are modelled as explicit
error values; a raise that happens before any field assignment leaves the
record unchanged, which the embedding mirrors by returning the input
record alongside the error.  Dictionary-valued bookkeeping (`metadata`)
is not observed by any claim and is omitted.
-/

namespace NotifSvc

/-- NotificationType enum from `notification.py` (declaration order:
EMAIL, IN_APP, SYSTEM). -/
inductive NotificationType where
  | email
  | inApp
  | sysType
  deriving DecidableEq

/-- NotificationStatus enum from `notification.py`. -/
inductive NotificationStatus where
  | pending
  | sent
  | failed
  | cancelled
  deriving DecidableEq

/-- NotificationPriority enum from `notification.py` (declaration order:
LOW, MEDIUM, HIGH, URGENT; Python iterates an Enum in declaration order). -/
inductive NotificationPriority where
  | low
  | medium
  | high
  | urgent
  deriving DecidableEq

/-- The Python `.value` string of a status, used in error messages. -/
def statusValue : NotificationStatus → String
  | .pending => "pending"
  | .sent => "sent"
  | .failed => "failed"
  | .cancelled => "cancelled"

/-- One entry of `Notification.error_messages`: the dict
`\x7b"timestamp": ..., "message": ..., "retry_count": ...\x7d` appended by
`update_status`. -/
structure ErrorEntry where
  timestamp : Int
  message : String
  retryCountAtFailure : Nat
  deriving DecidableEq

/-- The `Notification` dataclass fields observed by the claims
(`metadata` and the opaque `content` dict are omitted; whether `content`
is a dict is tracked in `NotificationInput`). -/
structure Notification where
  template_name : String
  notification_type : NotificationType
  recipients : List String
  priority : NotificationPriority
  scheduled_for : Option Int
  status : NotificationStatus
  created_at : Int
  updated_at : Int
  retry_count : Nat
  error_messages : List ErrorEntry
  deriving DecidableEq

/-- Raw constructor arguments of `Notification` before `__post_init__`
runs.  `templateIsString` and `contentIsDict` record the dynamic-type
facts the Python validation checks with `isinstance`. -/
structure NotificationInput where
  template_name : String
  templateIsString : Bool
  notification_type : NotificationType
  contentIsDict : Bool
  recipients : List String
  priority : NotificationPriority
  scheduled_for : Option Int
  deriving DecidableEq

/-- The notification record produced when `__post_init__` raises nothing:
status starts `PENDING`, `retry_count` 0, `error_messages` empty,
`created_at` and `updated_at` default to the current instant. -/
def buildNotification (now : Int) (inp : NotificationInput) : Notification :=
  { template_name := inp.template_name
    notification_type := inp.notification_type
    recipients := inp.recipients
    priority := inp.priority
    scheduled_for := inp.scheduled_for
    status := NotificationStatus.pending
    created_at := now
    updated_at := now
    retry_count := 0
    error_messages := [] }

/-- `Notification.__post_init__` validation (notification.py lines 67-97):
raises ValueError on an empty or non-string template name, an empty
recipients list, non-dict content, or a `scheduled_for` strictly in the
past.  The metadata update at the end is bookkeeping and omitted. -/
def mkNotification (now : Int) (inp : NotificationInput) :
    Except String Notification :=
  if inp.template_name = "" ∨ inp.templateIsString = false then
    Except.error "Invalid template name"
  else if inp.recipients = [] then
    Except.error "Recipients list cannot be empty"
  else if inp.contentIsDict = false then
    Except.error "Content must be a dictionary"
  else
    match inp.scheduled_for with
    | some t =>
        if t < now then Except.error "Scheduled time cannot be in the past"
        else Except.ok (buildNotification now inp)
    | none => Except.ok (buildNotification now inp)

/-- The `valid_transitions` table from `update_status`
(notification.py lines 141-146). -/
def validTransitions : NotificationStatus → List NotificationStatus
  | .pending => [.sent, .failed, .cancelled]
  | .failed => [.pending, .cancelled]
  | .sent => [.failed]
  | .cancelled => []

/-- The ValueError message raised on an invalid transition
(f-string at notification.py line 149). -/
def invalidTransitionMessage (current requested : NotificationStatus) :
    String :=
  "Invalid status transition from " ++ statusValue current ++ " to " ++
    statusValue requested

/-- `Notification.update_status` (notification.py lines 128-174).
Returns the post-call record and `some msg` when a ValueError is raised.
The raise happens before any field assignment, so on error the record is
the unchanged input.  On success the status and `updated_at` are set;
then, only when an error message is present (Python truthiness: not None
and not the empty string) and the new status is FAILED, the message is
appended to `error_messages` with the pre-increment `retry_count`, and
`retry_count` is incremented. -/
def update_status (n : Notification) (now : Int)
    (new_status : NotificationStatus) (error_message : Option String) :
    Notification × Option String :=
  if new_status ∈ validTransitions n.status then
    let n₁ := { n with status := new_status, updated_at := now }
    let n₂ :=
      match error_message with
      | some msg =>
          if msg ≠ "" ∧ new_status = NotificationStatus.failed then
            { n₁ with
              error_messages :=
                n₁.error_messages ++ [⟨now, msg, n₁.retry_count⟩]
              retry_count := n₁.retry_count + 1 }
          else n₁
      | none => n₁
    (n₂, none)
  else (n, some (invalidTransitionMessage n.status new_status))

/-- Retry configuration read from `Config`
(`NOTIFICATION_RETRY_ATTEMPTS`, default 3, and
`NOTIFICATION_RETRY_DELAY`, default 300 seconds). -/
structure RetryConfig where
  retry_attempts : Nat
  retry_delay : Int
  deriving DecidableEq

/-- Default configuration values from `config.py`
(DEFAULT_RETRY_ATTEMPTS = 3, DEFAULT_RETRY_DELAY = 300). -/
def defaultRetryConfig : RetryConfig := ⟨3, 300⟩

/-- Python `max(error["timestamp"] for error in self.error_messages)`
over a non-empty list, `none` when the list is empty. -/
def maxTimestamp (l : List ErrorEntry) : Option Int :=
  match l.map ErrorEntry.timestamp with
  | [] => none
  | t :: ts => some (ts.foldl max t)

/-- `Notification.can_retry` (notification.py lines 99-126): false once
`retry_count` reaches the configured attempts, false unless status is
FAILED, otherwise true iff the time since the latest recorded failure
timestamp (or `created_at` when there is none) is at least
`retry_delay * 2 ^ retry_count`. -/
def can_retry (cfg : RetryConfig) (now : Int) (n : Notification) : Bool :=
  if cfg.retry_attempts ≤ n.retry_count then false
  else if n.status ≠ NotificationStatus.failed then false
  else
    let current_delay := cfg.retry_delay * 2 ^ n.retry_count
    let last_attempt := (maxTimestamp n.error_messages).getD n.created_at
    decide (current_delay ≤ now - last_attempt)

/-- Timestamp of the most recently appended failure, `created_at` when
there is none.  This follows the spec wording `elapsed time since the
last recorded failure (or createdAt if no failures yet)`; the source
computes the maximum timestamp instead, and the two agree whenever the
recorded timestamps are in non-decreasing order. -/
def specLastRecordedFailure (n : Notification) : Int :=
  ((n.error_messages.map ErrorEntry.timestamp).getLast?).getD n.created_at

/-- The per-channel rate-limiter counters created in
`NotificationService.__init__` (notification_service.py lines 61-66).
Each is a prometheus `Counter`, which starts at 0. -/
structure RateCounts where
  emailCount : Nat
  inAppCount : Nat
  sysCount : Nat
  deriving DecidableEq

/-- All prometheus counters start at value 0. -/
def initRateCounts : RateCounts := ⟨0, 0, 0⟩

/-- Read the counter for a notification type
(`self._rate_limiters[notification_type]._value.get()`). -/
def getCount (c : RateCounts) : NotificationType → Nat
  | .email => c.emailCount
  | .inApp => c.inAppCount
  | .sysType => c.sysCount

/-- The `max_rates` table in `_check_rate_limit`
(notification_service.py lines 202-206). -/
def maxRates : NotificationType → Nat
  | .email => 100
  | .inApp => 1000
  | .sysType => 500

/-- `NotificationService._check_rate_limit` (lines 199-207): reads the
current counter value and compares it with the per-type maximum.  It
performs no mutation. -/
def check_rate_limit (c : RateCounts) (t : NotificationType) : Bool :=
  decide (getCount c t < maxRates t)

/-- One admission check as the service performs it.  No statement in
`notification_service.py` ever increments a `_rate_limiters` counter
(the only `.inc()` call is on the separate `NOTIFICATION_METRICS`
counter), so the counter state after a check equals the state before. -/
def tryAcquireStep (c : RateCounts) (t : NotificationType) :
    Bool × RateCounts :=
  (check_rate_limit c t, c)

/-- Iterate `k` successive admission checks, collecting the returned
booleans and the final counter state. -/
def runAcquires (c : RateCounts) (t : NotificationType) :
    Nat → List Bool × RateCounts
  | 0 => ([], c)
  | Nat.succ k =>
      let step := tryAcquireStep c t
      let rest := runAcquires step.2 t k
      (step.1 :: rest.1, rest.2)

/-- An `asyncio.Queue` with its `maxsize` bound and current items. -/
structure AsyncQueue (α : Type) where
  maxsize : Nat
  items : List α
  deriving DecidableEq

/-- Outcome of a call to `asyncio.Queue.put`.  `inserted` carries the new
queue; `suspended` is the blocking case (`await put` on a full queue
waits for space; nothing is inserted at the moment of the call);
`queueFullError` is the `asyncio.QueueFull` exception, which only
`put_nowait` can raise — the source uses `await put`, so the embedding
never produces it, but it is included so the claimed behaviour can be
stated. -/
inductive PutOutcome (α : Type) where
  | inserted (q : AsyncQueue α)
  | suspended
  | queueFullError
  deriving DecidableEq

/-- `await queue.put(x)` semantics as used at
notification_service.py line 135: insert when below `maxsize`,
otherwise suspend the caller. -/
def AsyncQueue.put (q : AsyncQueue α) (x : α) : PutOutcome α :=
  if q.items.length < q.maxsize then
    PutOutcome.inserted ⟨q.maxsize, q.items ++ [x]⟩
  else PutOutcome.suspended

/-- Queue capacities from `NotificationService.__init__`
(lines 54-59): URGENT 1000, HIGH 2000, MEDIUM 5000, LOW 10000. -/
def queueCapacity : NotificationPriority → Nat
  | .urgent => 1000
  | .high => 2000
  | .medium => 5000
  | .low => 10000

/-- Python iterates `for priority in NotificationPriority` in enum
declaration order, which in `notification.py` is LOW, MEDIUM, HIGH,
URGENT. -/
def pyPriorityOrder : List NotificationPriority :=
  [.low, .medium, .high, .urgent]

/-- Dequeue order of one outer cycle of
`NotificationService.process_queued_notifications` (lines 209-225) when
no processed item is re-enqueued: for each priority in Python iteration
order, the inner `while not queue.empty()` loop drains that queue
completely before the next priority is considered. -/
def processCycleOrder (qs : NotificationPriority → List α) : List α :=
  (pyPriorityOrder.map qs).flatten

/-- A Python exception as classified by the `backoff` decorator on
`EmailService.send_email`: `smtp` is retried
(`smtplib.SMTPException` / `ConnectionError`), `generic` is not
(e.g. `ValueError`). -/
inductive PyExc where
  | smtp (msg : String)
  | generic (msg : String)
  deriving DecidableEq

/-- Result of one Python call: the post-call notification record, the
returned value when the call returned, and the exception when it
raised. -/
structure EmailCallResult where
  notification : Notification
  returned : Option Bool
  raised : Option PyExc
  deriving DecidableEq

/-- What the external SMTP/template world does during one
`send_email` attempt: the send succeeds, `smtp.send_message`/`connect`
raises an `SMTPException`, or some other exception (template rendering,
decryption, ...) is raised. -/
inductive ExternalOutcome where
  | success
  | smtpError (msg : String)
  | otherError (msg : String)
  deriving DecidableEq

/-- `EmailService._handle_error` (email_service.py lines 226-238)
followed by the `raise` in the `except Exception` arm of `send_email`:
records `"Error sending email: " ++ e` via `update_status(FAILED, ...)`
and re-raises the original exception; if that `update_status` itself
raises a ValueError, the ValueError propagates instead. -/
def handleGenericError (n : Notification) (now : Int) (e : String) :
    EmailCallResult :=
  match update_status n now NotificationStatus.failed
      (some ("Error sending email: " ++ e)) with
  | (n', none) => ⟨n', none, some (PyExc.generic e)⟩
  | (n', some ve) => ⟨n', none, some (PyExc.generic ve)⟩

/-- `EmailService._handle_smtp_error` (lines 212-224) followed by the
`raise` in the `except smtplib.SMTPException` arm: records
`"SMTP Error: " ++ e` and re-raises the SMTPException; a ValueError
raised by `update_status` inside the handler propagates instead. -/
def handleSmtpError (n : Notification) (now : Int) (e : String) :
    EmailCallResult :=
  match update_status n now NotificationStatus.failed
      (some ("SMTP Error: " ++ e)) with
  | (n', none) => ⟨n', none, some (PyExc.smtp e)⟩
  | (n', some ve) => ⟨n', none, some (PyExc.generic ve)⟩

/-- One attempt of `EmailService.send_email` (lines 119-180), with the
recipient regex abstracted as the predicate `emailOk`.  Validation
failures raise ValueError, which the function's own `except Exception`
arm catches via `_handle_error` before re-raising.  When the external
send succeeds, the function calls `notification.update_status(SENT)`
and returns True; a ValueError from that call is also caught by the
`except Exception` arm. -/
def sendEmailOnce (emailOk : String → Bool) (n : Notification) (now : Int)
    (r : ExternalOutcome) : EmailCallResult :=
  if n.notification_type ≠ NotificationType.email then
    handleGenericError n now "Invalid notification type for email service"
  else if n.recipients.filter emailOk = [] then
    handleGenericError n now "No valid recipients provided"
  else
    match r with
    | ExternalOutcome.success =>
        match update_status n now NotificationStatus.sent none with
        | (n₁, none) => ⟨n₁, some true, none⟩
        | (n₁, some ve) => handleGenericError n₁ now ve
    | ExternalOutcome.smtpError m => handleSmtpError n now m
    | ExternalOutcome.otherError m => handleGenericError n now m

/-- The `backoff.on_exception` decorator on `send_email`
(max_tries = MAX_RETRIES = 3): re-invoke the function while the raised
exception is an SMTP/connection one and tries remain.  `fuel` counts the
remaining re-invocations. -/
def sendEmailTries (emailOk : String → Bool) (now : Int)
    (r : ExternalOutcome) : Nat → Notification → EmailCallResult
  | 0, n => sendEmailOnce emailOk n now r
  | Nat.succ k, n =>
      let res := sendEmailOnce emailOk n now r
      match res.raised with
      | some (PyExc.smtp _) => sendEmailTries emailOk now r k res.notification
      | _ => res

/-- `EmailService.send_email` as called by the service: at most 3
attempts under the backoff decorator. -/
def send_email (emailOk : String → Bool) (n : Notification) (now : Int)
    (r : ExternalOutcome) : EmailCallResult :=
  sendEmailTries emailOk now r 2 n

/-- `NotificationService._process_email_notification` (lines 169-175):
returns the value `send_email` returned, and False when it raised. -/
def processEmailNotification (emailOk : String → Bool) (n : Notification)
    (now : Int) (r : ExternalOutcome) : Notification × Bool :=
  let res := send_email emailOk n now r
  match res.returned with
  | some b => (res.notification, b)
  | none => (res.notification, false)

/-- One execution of the body of `NotificationService.send_notification`
(lines 127-167) for an email notification.  If the rate check denies,
the notification is put back on its priority queue and False is
returned (the queue itself is not needed by any claim).  Otherwise the
email path runs, then `update_status(SENT if success else FAILED)` is
called with no error message; a ValueError from it is caught by the
`except Exception` arm, which calls `update_status(FAILED, str(e))` and
re-raises. -/
def sendNotificationBody (emailOk : String → Bool) (c : RateCounts)
    (n : Notification) (now : Int) (r : ExternalOutcome) :
    EmailCallResult :=
  if check_rate_limit c NotificationType.email = false then
    ⟨n, some false, none⟩
  else
    let step := processEmailNotification emailOk n now r
    match update_status step.1 now
        (if step.2 then NotificationStatus.sent else NotificationStatus.failed)
        none with
    | (n₂, none) => ⟨n₂, some step.2, none⟩
    | (n₂, some ve) =>
        match update_status n₂ now NotificationStatus.failed (some ve) with
        | (n₃, none) => ⟨n₃, none, some (PyExc.generic ve)⟩
        | (n₃, some ve₂) => ⟨n₃, none, some (PyExc.generic ve₂)⟩

/-- How `create_notification` (notification_controller.py lines 125-140)
routes a freshly constructed notification. -/
inductive SubmitPath where
  | backgroundTask (deferredUntil : Option Int)
  | processImmediately
  deriving DecidableEq

/-- The scheduling branch of `create_notification`: when `scheduled_for`
is set and strictly in the future, the controller calls
`background_tasks.add_task(send_notification, notification, priority)` —
a FastAPI background task carries no start time (the call passes only
the notification and priority), so its deferral is `none`; otherwise the
notification is processed immediately in the request handler. -/
def createNotificationPath (now : Int) (scheduled_for : Option Int) :
    SubmitPath :=
  match scheduled_for with
  | some t =>
      if now < t then SubmitPath.backgroundTask none
      else SubmitPath.processImmediately
  | none => SubmitPath.processImmediately

/-- Earliest instant at which the chosen path invokes
`send_notification`: a FastAPI background task runs as soon as the
response is sent (modelled as the submission instant `now`), unless a
deferral is attached; immediate processing also runs at `now`. -/
def attemptTime (now : Int) : SubmitPath → Int
  | SubmitPath.backgroundTask none => now
  | SubmitPath.backgroundTask (some t) => max now t
  | SubmitPath.processImmediately => now

/-- A fresh PENDING email notification used as concrete input. -/
def exNotification : Notification :=
  { template_name := "welcome_email"
    notification_type := NotificationType.email
    recipients := ["user@example.com"]
    priority := NotificationPriority.high
    scheduled_for := none
    status := NotificationStatus.pending
    created_at := 0
    updated_at := 0
    retry_count := 0
    error_messages := [] }

/-- Queue contents for the priority-order scenario: one item in LOW
(10), one in URGENT (20), one in MEDIUM (30), HIGH empty. -/
def scenarioQueues : NotificationPriority → List Nat
  | .low => [10]
  | .medium => [30]
  | .high => []
  | .urgent => [20]

/-- The URGENT priority queue filled to its capacity of 1000. -/
def urgentFullQueue : AsyncQueue Nat :=
  ⟨queueCapacity NotificationPriority.urgent, List.replicate 1000 0⟩

/-- The invariant of claim C7: `retry_count` equals the length of
`error_messages`. -/
def retryInvariant (n : Notification) : Prop :=
  n.retry_count = n.error_messages.length

/-- A FAILED notification with one recorded failure, used as concrete
input for the retry-eligibility witness. -/
def exFailedNotification : Notification :=
  { exNotification with
    status := NotificationStatus.failed
    retry_count := 1
    error_messages := [⟨10, "SMTP Error: boom", 0⟩] }

/-- A small queue at capacity, used as concrete witness input. -/
def smallFullQueue : AsyncQueue Nat := ⟨2, [5, 6]⟩

/-- A well-formed constructor input, used as concrete witness input. -/
def exInput : NotificationInput :=
  { template_name := "welcome_email"
    templateIsString := true
    notification_type := NotificationType.email
    contentIsDict := true
    recipients := ["user@example.com"]
    priority := NotificationPriority.high
    scheduled_for := some 50 }

theorem foldl_max_chain (a : Int) (l : List Int)
    (h : List.Chain (· ≤ ·) a l) :
    some (l.foldl max a) = (a :: l).getLast? := by
  induction l generalizing a with
  | nil => rfl
  | cons b t ih =>
      cases h with
      | cons hab ht =>
          have hmax : max a b = b := max_eq_right hab
          rw [List.foldl_cons, hmax, List.getLast?_cons_cons]
          exact ih b ht

theorem maxTimestamp_eq_specLast (n : Notification)
    (h : List.Chain' (· ≤ ·) (n.error_messages.map ErrorEntry.timestamp)) :
    (maxTimestamp n.error_messages).getD n.created_at =
      specLastRecordedFailure n := by
  unfold maxTimestamp specLastRecordedFailure
  cases hm : n.error_messages.map ErrorEntry.timestamp with
  | nil => simp
  | cons t ts =>
      rw [hm] at h
      rw [← foldl_max_chain t ts h]

/-- C1: `update_status` succeeds exactly when the requested status is in
the transition table Pending -> Sent/Failed/Cancelled,
Failed -> Pending/Cancelled, Sent -> Failed, Cancelled -> nothing; on
success it sets `updated_at` to the current instant (and the status to
the requested one), and on any invalid pair it raises a ValueError whose
message is the invalid-transition message and leaves the notification
record exactly as it was. -/
theorem update_status_transition_table (n : Notification) (now : Int)
    (s : NotificationStatus) (m : Option String) :
    validTransitions NotificationStatus.pending =
      [NotificationStatus.sent, NotificationStatus.failed,
       NotificationStatus.cancelled] ∧
    validTransitions NotificationStatus.failed =
      [NotificationStatus.pending, NotificationStatus.cancelled] ∧
    validTransitions NotificationStatus.sent = [NotificationStatus.failed] ∧
    validTransitions NotificationStatus.cancelled = [] ∧
    (s ∈ validTransitions n.status →
      (update_status n now s m).2 = none ∧
      (update_status n now s m).1.status = s ∧
      (update_status n now s m).1.updated_at = now) ∧
    (s ∉ validTransitions n.status →
      update_status n now s m = (n, some (invalidTransitionMessage n.status s))) := by
  refine ⟨rfl, rfl, rfl, rfl, ?_, ?_⟩
  · intro hmem
    simp only [update_status, if_pos hmem]
    cases m with
    | none => simp
    | some msg =>
        by_cases hc : msg ≠ "" ∧ s = NotificationStatus.failed
        · simp [hc]
        · simp [hc]
  · intro hmem
    simp [update_status, hmem]

theorem update_status_transition_table_witness :
    (update_status exNotification 5 NotificationStatus.sent none).2 = none ∧
    (update_status exNotification 5 NotificationStatus.sent none).1.status =
      NotificationStatus.sent ∧
    (update_status exNotification 5 NotificationStatus.sent none).1.updated_at = 5 :=
  (update_status_transition_table exNotification 5
      NotificationStatus.sent none).2.2.2.2.1 (by decide)

/-- C2: `can_retry` is true iff the status is FAILED, `retry_count` is
below the configured attempts, and the time elapsed since the last
recorded failure (or `created_at` when there is none) is at least
`retry_delay * 2 ^ retry_count`; and once `retry_count` reaches the
configured attempts it is false no matter how much time has elapsed.
The source takes the maximum recorded timestamp, which is the last one
under the stated hypothesis that timestamps were recorded in
non-decreasing order (as `update_status` does with a monotone clock). -/
theorem can_retry_characterization (cfg : RetryConfig) (now : Int)
    (n : Notification)
    (h : List.Chain' (· ≤ ·) (n.error_messages.map ErrorEntry.timestamp)) :
    (can_retry cfg now n = true ↔
      (n.status = NotificationStatus.failed ∧
       n.retry_count < cfg.retry_attempts ∧
       cfg.retry_delay * 2 ^ n.retry_count ≤
         now - specLastRecordedFailure n)) ∧
    (cfg.retry_attempts ≤ n.retry_count → can_retry cfg now n = false) := by
  have hb := maxTimestamp_eq_specLast n h
  constructor
  · simp only [can_retry, hb]
    by_cases h1 : cfg.retry_attempts ≤ n.retry_count
    · simp only [if_pos h1]
      constructor
      · intro hfalse
        exact absurd hfalse (by simp)
      · rintro ⟨-, hlt, -⟩
        omega
    · by_cases h2 : n.status = NotificationStatus.failed
      · simp [h1, h2]
        omega
      · simp [h1, h2]
  · intro hge
    simp [can_retry, hge]

theorem can_retry_characterization_witness :
    can_retry defaultRetryConfig 1000 exFailedNotification = true :=
  ((can_retry_characterization defaultRetryConfig 1000 exFailedNotification
      (by simp [exFailedNotification, exNotification])).1).mpr (by decide)

/-- C3: evaluation of the source rate limiter at the failing input.  The
claim requires the (N+1)th call within a window (N = 100 for email) to
be denied and each admitted call to increment the counter; but no code
path increments a `_rate_limiters` counter, so 101 successive checks all
return true and the counter is still 0 afterwards. -/
theorem rate_limiter_never_increments :
    (runAcquires initRateCounts NotificationType.email 101).1 =
      List.replicate 101 true ∧
    (runAcquires initRateCounts NotificationType.email 101).2 =
      initRateCounts ∧
    maxRates NotificationType.email = 100 := by
  decide

/-- C4: evaluation of one dispatch cycle at the failing input.  With one
item in LOW (10), one in URGENT (20) and one in MEDIUM (30), the loop
dequeues LOW first, then MEDIUM, then URGENT — because Python iterates
`NotificationPriority` in declaration order LOW, MEDIUM, HIGH, URGENT
and drains each queue completely — whereas the claim requires URGENT,
then MEDIUM, then LOW. -/
theorem dispatch_scan_order_low_first :
    processCycleOrder scenarioQueues = [10, 30, 20] ∧
    processCycleOrder scenarioQueues ≠ [20, 30, 10] := by
  decide

/-- C5 counterexample: putting an item on the URGENT queue at its
capacity of 1000 suspends the caller (the source awaits
`asyncio.Queue.put`); it does not produce the claimed QueueFull
error. -/
theorem enqueue_full_queue_cex :
    AsyncQueue.put urgentFullQueue 7 = PutOutcome.suspended ∧
    AsyncQueue.put urgentFullQueue 7 ≠ PutOutcome.queueFullError := by
  have hlen : urgentFullQueue.items.length = urgentFullQueue.maxsize := by
    show (List.replicate 1000 (0 : Nat)).length = 1000
    rw [List.length_replicate]
  constructor
  · simp [AsyncQueue.put, hlen]
  · simp [AsyncQueue.put, hlen]

/-- C5 amended: the priority queues are created with capacities
URGENT 1000, HIGH 2000, MEDIUM 5000, LOW 10000; `await put` on a queue
at capacity suspends the submitter until space frees (no QueueFull
error is ever raised, and nothing is inserted at the moment of the
call), while on a queue below capacity it appends the item. -/
theorem enqueue_put_semantics {α : Type} (q : AsyncQueue α) (x : α) :
    (q.items.length = q.maxsize → q.put x = PutOutcome.suspended) ∧
    (q.items.length < q.maxsize →
      q.put x = PutOutcome.inserted ⟨q.maxsize, q.items ++ [x]⟩) ∧
    q.put x ≠ PutOutcome.queueFullError ∧
    queueCapacity NotificationPriority.urgent = 1000 ∧
    queueCapacity NotificationPriority.high = 2000 ∧
    queueCapacity NotificationPriority.medium = 5000 ∧
    queueCapacity NotificationPriority.low = 10000 := by
  refine ⟨?_, ?_, ?_, rfl, rfl, rfl, rfl⟩
  · intro h
    simp [AsyncQueue.put, h]
  · intro h
    simp [AsyncQueue.put, h]
  · unfold AsyncQueue.put
    split <;> simp

theorem enqueue_put_semantics_witness :
    AsyncQueue.put smallFullQueue 7 = PutOutcome.suspended :=
  (enqueue_put_semantics smallFullQueue 7).1 (by decide)

/-- C6 counterexample: from PENDING, `update_status(FAILED)` with no
error message succeeds, yet appends nothing to `error_messages` and
leaves `retry_count` at 0 — refuting the claim that every transition to
FAILED carries a message that gets recorded. -/
theorem failed_transition_without_message_cex :
    (update_status exNotification 10 NotificationStatus.failed none).2 = none ∧
    (update_status exNotification 10 NotificationStatus.failed none).1.status =
      NotificationStatus.failed ∧
    (update_status exNotification 10 NotificationStatus.failed none).1.error_messages = [] ∧
    (update_status exNotification 10 NotificationStatus.failed none).1.retry_count = 0 := by
  decide

/-- C6 amended: a valid transition to FAILED carrying a non-empty error
message appends the message with the timestamp and the pre-increment
`retry_count` to `error_messages` and then increments `retry_count`; a
transition to any other status, or to FAILED with no message or an
empty one, leaves `error_messages` and `retry_count` untouched. -/
theorem update_status_error_tracking (n : Notification) (now : Int)
    (s : NotificationStatus) (msg : String)
    (hmem : s ∈ validTransitions n.status) :
    (s = NotificationStatus.failed → msg ≠ "" →
      (update_status n now s (some msg)).1.error_messages =
        n.error_messages ++ [⟨now, msg, n.retry_count⟩] ∧
      (update_status n now s (some msg)).1.retry_count = n.retry_count + 1) ∧
    (s ≠ NotificationStatus.failed →
      (update_status n now s (some msg)).1.error_messages = n.error_messages ∧
      (update_status n now s (some msg)).1.retry_count = n.retry_count) ∧
    ((update_status n now s none).1.error_messages = n.error_messages ∧
      (update_status n now s none).1.retry_count = n.retry_count) ∧
    ((update_status n now s (some "")).1.error_messages = n.error_messages ∧
      (update_status n now s (some "")).1.retry_count = n.retry_count) := by
  refine ⟨?_, ?_, ?_, ?_⟩
  · intro hs hmsg
    subst hs
    simp [update_status, hmem, hmsg]
  · intro hs
    simp [update_status, hmem, hs]
  · simp [update_status, hmem]
  · simp [update_status, hmem]

theorem update_status_error_tracking_witness :
    (update_status exNotification 10 NotificationStatus.failed
        (some "boom")).1.error_messages =
      exNotification.error_messages ++
        [⟨10, "boom", exNotification.retry_count⟩] ∧
    (update_status exNotification 10 NotificationStatus.failed
        (some "boom")).1.retry_count = exNotification.retry_count + 1 :=
  (update_status_error_tracking exNotification 10
      NotificationStatus.failed "boom" (by decide)).1 rfl (by decide)

/-- C7: the invariant `retry_count = length error_messages` holds for
every freshly constructed notification and is preserved by every call
of `update_status`, whether it succeeds or raises (and `can_retry`
reads but never writes the record, so it preserves every invariant
trivially). -/
theorem retry_count_matches_error_history :
    (∀ (now : Int) (inp : NotificationInput) (n : Notification),
      mkNotification now inp = Except.ok n → retryInvariant n) ∧
    (∀ (n : Notification) (now : Int) (s : NotificationStatus)
        (m : Option String),
      retryInvariant n → retryInvariant (update_status n now s m).1) := by
  constructor
  · intro now inp n h
    unfold mkNotification at h
    split at h
    · simp at h
    · split at h
      · simp at h
      · split at h
        · simp at h
        · split at h
          · split at h
            · simp at h
            · rw [Except.ok.injEq] at h
              rw [← h]
              rfl
          · rw [Except.ok.injEq] at h
            rw [← h]
            rfl
  · intro n now s m h
    unfold retryInvariant at h ⊢
    unfold update_status
    split
    · cases m with
      | none => simpa using h
      | some msg =>
          by_cases hc : msg ≠ "" ∧ s = NotificationStatus.failed
          · simp [hc, h]
          · simp [hc, h]
    · simpa using h

theorem retry_count_matches_error_history_witness :
    retryInvariant
      (update_status exNotification 3 NotificationStatus.failed
          (some "boom")).1 :=
  retry_count_matches_error_history.2 exNotification 3
    NotificationStatus.failed (some "boom") rfl

/-- C8: evaluation of the email dispatch path at the failing input.  For
a fresh PENDING email notification whose SMTP send succeeds,
`EmailService.send_email` already transitions it to SENT; then
`send_notification` calls `update_status(SENT)` a second time, which
raises the invalid-transition ValueError (sent to sent), and the
`except` arm transitions the notification SENT -> FAILED with that
message.  The call therefore ends with status FAILED, one recorded
error, and a propagating exception — not the claimed SENT. -/
theorem successful_delivery_ends_failed :
    (sendNotificationBody (fun _ => true) initRateCounts exNotification 5
        ExternalOutcome.success).notification.status =
      NotificationStatus.failed ∧
    (sendNotificationBody (fun _ => true) initRateCounts exNotification 5
        ExternalOutcome.success).notification.error_messages =
      [⟨5, invalidTransitionMessage NotificationStatus.sent
            NotificationStatus.sent, 0⟩] ∧
    (sendNotificationBody (fun _ => true) initRateCounts exNotification 5
        ExternalOutcome.success).returned = none ∧
    (sendNotificationBody (fun _ => true) initRateCounts exNotification 5
        ExternalOutcome.success).raised =
      some (PyExc.generic (invalidTransitionMessage NotificationStatus.sent
            NotificationStatus.sent)) := by
  exact ⟨rfl, rfl, rfl, rfl⟩

/-- C9: evaluation of the controller's scheduling branch at the failing
input.  A notification submitted at instant 0 with `scheduled_for` one
hour ahead (3600) is routed to a FastAPI background task that carries
no start time, and a background task runs as soon as the response is
sent — so the delivery attempt happens at instant 0, strictly before
the scheduled time, contrary to the claim that it is held until due. -/
theorem scheduled_notification_runs_immediately :
    createNotificationPath 0 (some 3600) = SubmitPath.backgroundTask none ∧
    attemptTime 0 (createNotificationPath 0 (some 3600)) = 0 ∧
    attemptTime 0 (createNotificationPath 0 (some 3600)) < 3600 := by
  exact ⟨rfl, rfl, by decide⟩

theorem mkNotification_ok_iff (now : Int) (inp : NotificationInput)
    (n : Notification) :
    mkNotification now inp = Except.ok n ↔
      (¬(inp.template_name = "" ∨ inp.templateIsString = false) ∧
       inp.recipients ≠ [] ∧ inp.contentIsDict = true ∧
       (∀ t, inp.scheduled_for = some t → ¬t < now) ∧
       n = buildNotification now inp) := by
  unfold mkNotification
  by_cases h1 : inp.template_name = "" ∨ inp.templateIsString = false
  · simp [h1]
  · rw [if_neg h1]
    by_cases h2 : inp.recipients = []
    · simp [h1, h2]
    · rw [if_neg h2]
      by_cases h3 : inp.contentIsDict = false
      · simp [h1, h2, h3]
      · rw [if_neg h3]
        cases hs : inp.scheduled_for with
        | none =>
            simp only [hs]
            constructor
            · intro h
              rw [Except.ok.injEq] at h
              exact ⟨h1, h2, by simpa using h3, by simp, h.symm⟩
            · rintro ⟨-, -, -, -, rfl⟩
              rfl
        | some t =>
            simp only [hs]
            by_cases h4 : t < now
            · rw [if_pos h4]
              constructor
              · intro h
                exact absurd h (by simp)
              · rintro ⟨-, -, -, hall, -⟩
                exact absurd h4 (hall t rfl)
            · rw [if_neg h4]
              constructor
              · intro h
                rw [Except.ok.injEq] at h
                refine ⟨h1, h2, by simpa using h3, ?_, h.symm⟩
                intro u hu
                rw [Option.some.injEq] at hu
                rw [← hu]
                exact h4
              · rintro ⟨-, -, -, -, rfl⟩
                rfl

/-- C10: constructing a `Notification` fails with a ValueError exactly
when the template name is empty or not a string, the recipients list is
empty, the content is not a dict, or `scheduled_for` is set strictly in
the past; consequently every constructed notification has a non-empty
string template name, at least one recipient, dict content, and no
`scheduled_for` before the construction instant. -/
theorem notification_validation (now : Int) (inp : NotificationInput) :
    ((∃ n, mkNotification now inp = Except.ok n) ↔
      ¬(inp.template_name = "" ∨ inp.templateIsString = false ∨
        inp.recipients = [] ∨ inp.contentIsDict = false ∨
        (∃ t, inp.scheduled_for = some t ∧ t < now))) ∧
    (∀ n, mkNotification now inp = Except.ok n →
      n.template_name ≠ "" ∧ inp.templateIsString = true ∧
      n.recipients ≠ [] ∧ inp.contentIsDict = true ∧
      (∀ t, n.scheduled_for = some t → now ≤ t)) := by
  constructor
  · constructor
    · rintro ⟨n, hn⟩
      rw [mkNotification_ok_iff] at hn
      obtain ⟨h1, h2, h3, h4, -⟩ := hn
      push_neg
      push_neg at h1
      refine ⟨h1.1, by simpa using h1.2, h2, by simp [h3], ?_⟩
      intro t ht
      exact le_of_not_lt (h4 t ht)
    · intro h
      push_neg at h
      obtain ⟨h1, h2, h3, h4, h5⟩ := h
      refine ⟨buildNotification now inp, ?_⟩
      rw [mkNotification_ok_iff]
      refine ⟨?_, h3, ?_, ?_, rfl⟩
      · push_neg
        exact ⟨h1, h2⟩
      · cases hcd : inp.contentIsDict with
        | true => rfl
        | false => exact absurd hcd h4
      · intro t ht
        exact not_lt_of_le (h5 t ht)
  · intro n hn
    rw [mkNotification_ok_iff] at hn
    obtain ⟨h1, h2, h3, h4, hb⟩ := hn
    push_neg at h1
    subst hb
    refine ⟨h1.1, by simpa using h1.2, h2, h3, ?_⟩
    intro t ht
    exact le_of_not_lt (h4 t ht)

theorem notification_validation_witness :
    ∃ n, mkNotification 0 exInput = Except.ok n :=
  (notification_validation 0 exInput).1.mpr (by simp [exInput])

end NotifSvc
